import Mathlib

/-
Formal model of the compare_ai model/provider registry and prediction layer.

The development shallowly embeds the Python sources:
  - compare_ai/repository/models/definitions.py      (TaskType)
  - compare_ai/repository/models/models.py           (ModelCapability, Model)
  - compare_ai/repository/models/model_registry.py   (ModelRegistry)
  - compare_ai/repository/models/provider_factory.py (ProviderFactory)
  - compare_ai/repository/models/providers/openai_provider.py (OpenaiProvider)
  - compare_ai/results_manager.py                    (Result)

Python exceptions are embedded as `Except PyErr`; Python runtime values that
flow through `predict` and `Result` are embedded as the inductive `PyValue`
(dicts are ordered key/value pair sequences, as CPython dicts are).  Network
calls issued by the OpenAI provider are made observable as an explicit trace
of `ChatCall` values; the vendor client is a parameter mapping each call to
the extracted response text (or an exception).
-/

namespace CompareAI

/-- TaskType enumeration from definitions.py (13 members). -/
inductive TaskType where
  | TEXT_GENERATION
  | CHAT
  | TRANSLATION
  | SUMMARIZATION
  | TEXT_CLASSIFICATION
  | IMAGE_CLASSIFICATION
  | OBJECT_DETECTION
  | IMAGE_GENERATION
  | SPEECH_TO_TEXT
  | TEXT_TO_SPEECH
  | AUDIO_CLASSIFICATION
  | VISUAL_QA
  | IMAGE_CAPTIONING
  deriving DecidableEq, Repr

/-- Rendering of a TaskType member under Python str(), as interpolated by
f-strings: str(TaskType.CHAT) is "TaskType.CHAT". -/
def TaskType.pyStr : TaskType → String
  | .TEXT_GENERATION => "TaskType.TEXT_GENERATION"
  | .CHAT => "TaskType.CHAT"
  | .TRANSLATION => "TaskType.TRANSLATION"
  | .SUMMARIZATION => "TaskType.SUMMARIZATION"
  | .TEXT_CLASSIFICATION => "TaskType.TEXT_CLASSIFICATION"
  | .IMAGE_CLASSIFICATION => "TaskType.IMAGE_CLASSIFICATION"
  | .OBJECT_DETECTION => "TaskType.OBJECT_DETECTION"
  | .IMAGE_GENERATION => "TaskType.IMAGE_GENERATION"
  | .SPEECH_TO_TEXT => "TaskType.SPEECH_TO_TEXT"
  | .TEXT_TO_SPEECH => "TaskType.TEXT_TO_SPEECH"
  | .AUDIO_CLASSIFICATION => "TaskType.AUDIO_CLASSIFICATION"
  | .VISUAL_QA => "TaskType.VISUAL_QA"
  | .IMAGE_CAPTIONING => "TaskType.IMAGE_CAPTIONING"

/-- Python exceptions relevant to the embedded code, tagged with their
message. `otherError` stands for any exception class outside the ones the
sources name in `except` clauses (e.g. openai.OpenAIError, OSError). -/
inductive PyErr where
  | importError (msg : String)
  | valueError (msg : String)
  | typeError (msg : String)
  | attributeError (msg : String)
  | indexError (msg : String)
  | keyError (msg : String)
  | otherError (msg : String)
  deriving DecidableEq, Repr

mutual
/-- Python runtime values flowing through predict / Result: None, bools,
ints, strings, lists and dicts (an ordered sequence of key/value pairs,
as CPython dicts are).  Floats are outside the embedding; the integer case
covers the numeric payloads the claims quantify over. -/
inductive PyValue where
  | none
  | bool (b : Bool)
  | int (n : Int)
  | str (s : String)
  | list (xs : PyList)
  | dict (kvs : PyPairs)
  deriving DecidableEq, Repr
/-- Spine of a Python list of PyValues. -/
inductive PyList where
  | nil
  | cons (hd : PyValue) (tl : PyList)
  deriving DecidableEq, Repr
/-- Spine of a Python dict: ordered key/value pairs. -/
inductive PyPairs where
  | nil
  | cons (k v : PyValue) (tl : PyPairs)
  deriving DecidableEq, Repr
end

/-- Convert the embedded list spine to a Lean list. -/
def PyList.toList : PyList → List PyValue
  | .nil => []
  | .cons h t => h :: t.toList

/-- Convert a Lean list to the embedded list spine. -/
def listToPy : List PyValue → PyList
  | [] => .nil
  | x :: xs => .cons x (listToPy xs)

/-- The keys of a dict spine, in order. -/
def PyPairs.keyList : PyPairs → List PyValue
  | .nil => []
  | .cons k _ t => k :: t.keyList

/-- First value bound to a key in a dict spine (CPython dicts hold at most
one binding per key, so first = the binding). -/
def PyPairs.lookup : PyPairs → PyValue → Option PyValue
  | .nil, _ => Option.none
  | .cons k v t, key => if k = key then some v else t.lookup key

/-- Python truthiness for the embedded values (`if not image:`). -/
def PyValue.truthy : PyValue → Bool
  | .none => false
  | .bool b => b
  | .int n => decide (n ≠ 0)
  | .str s => decide (s ≠ "")
  | .list .nil => false
  | .list (.cons _ _) => true
  | .dict .nil => false
  | .dict (.cons _ _ _) => true

/-- isinstance(x, list). -/
def PyValue.isList : PyValue → Bool
  | .list _ => true
  | _ => false

/-- Shape test used by the JSON well-formedness predicate. -/
def PyValue.isStrB : PyValue → Bool
  | .str _ => true
  | _ => false

/-- Boolean membership in a list of PyValues. -/
def pyMemB (x : PyValue) : List PyValue → Bool
  | [] => false
  | y :: ys => decide (x = y) || pyMemB x ys

/-- Boolean no-duplicates test on a list of PyValues. -/
def pyNodupB : List PyValue → Bool
  | [] => true
  | y :: ys => !pyMemB y ys && pyNodupB ys

/-- Assignment d[k] = v on a string-keyed assoc list with CPython dict
semantics: an existing binding is replaced in place, a new key is appended.
All dicts built by the embedded code keep their keys unique, so replacing
the first binding is replacing the binding. -/
def pyDictSet {α : Type} : List (String × α) → String → α → List (String × α)
  | [], k, v => [(k, v)]
  | p :: rest, k, v => if p.1 = k then (k, v) :: rest else p :: pyDictSet rest k v

/-- Lookup d[k] on a string-keyed assoc list. -/
def pyDictGet {α : Type} : List (String × α) → String → Option α
  | [], _ => Option.none
  | p :: rest, k => if p.1 = k then some p.2 else pyDictGet rest k

theorem pyMemB_eq_false_not_mem (x : PyValue) :
    ∀ l : List PyValue, pyMemB x l = false → x ∉ l := by
  intro l
  induction l with
  | nil => intro _ h; cases h
  | cons y ys ih =>
    intro h hmem
    rw [pyMemB, Bool.or_eq_false_iff] at h
    rcases List.mem_cons.mp hmem with h1 | h1
    · exact absurd h1 (by simpa using h.1)
    · exact ih h.2 h1

theorem pyDictGet_set {α : Type} (k : String) (v : α) :
    ∀ d : List (String × α), pyDictGet (pyDictSet d k v) k = some v := by
  intro d
  induction d with
  | nil => simp [pyDictSet, pyDictGet]
  | cons p rest ih =>
    by_cases h : p.1 = k
    · simp [pyDictSet, pyDictGet, h]
    · simp [pyDictSet, pyDictGet, h, ih]

theorem pyDictSet_append_of_not_mem {α : Type} (k : String) (v : α) :
    ∀ d : List (String × α), (∀ kv ∈ d, kv.1 ≠ k) → pyDictSet d k v = d ++ [(k, v)] := by
  intro d
  induction d with
  | nil => intro _; rfl
  | cons p rest ih =>
    intro h
    have hp : p.1 ≠ k := h p (List.mem_cons_self p rest)
    simp only [pyDictSet, if_neg hp, List.cons_append]
    rw [ih (fun kv hkv => h kv (List.mem_cons_of_mem p hkv))]

theorem pyDictSet_mem {α : Type} (k : String) (v : α) :
    ∀ d : List (String × α), ∀ x ∈ pyDictSet d k v, x ∈ d ∨ x = (k, v) := by
  intro d
  induction d with
  | nil => intro x hx; simp [pyDictSet] at hx; right; exact hx
  | cons p rest ih =>
    intro x hx
    by_cases h : p.1 = k
    · simp only [pyDictSet, if_pos h] at hx
      rcases List.mem_cons.mp hx with h1 | h1
      · right; exact h1
      · left; exact List.mem_cons_of_mem p h1
    · simp only [pyDictSet, if_neg h] at hx
      rcases List.mem_cons.mp hx with h1 | h1
      · left; exact h1 ▸ List.mem_cons_self p rest
      · rcases ih x h1 with h2 | h2
        · left; exact List.mem_cons_of_mem p h2
        · right; exact h2

theorem pyDictSet_key_mem {α : Type} (k : String) (v : α) :
    ∀ d : List (String × α), k ∈ (pyDictSet d k v).map Prod.fst := by
  intro d
  induction d with
  | nil => simp [pyDictSet]
  | cons p rest ih =>
    by_cases h : p.1 = k
    · simp [pyDictSet, h]
    · simp only [pyDictSet, if_neg h, List.map_cons, List.mem_cons]
      right; exact ih

theorem pyDictSet_key_preserved {α : Type} (k : String) (v : α) (k2 : String) :
    ∀ d : List (String × α), k2 ∈ d.map Prod.fst → k2 ∈ (pyDictSet d k v).map Prod.fst := by
  intro d
  induction d with
  | nil => intro h; cases h
  | cons p rest ih =>
    intro h
    rcases List.mem_cons.mp h with h1 | h1
    · by_cases hp : p.1 = k
      · simp [pyDictSet, hp, h1, hp ▸ h1]
      · simp [pyDictSet, hp, h1]
    · by_cases hp : p.1 = k
      · simp only [pyDictSet, if_pos hp, List.map_cons, List.mem_cons]
        right; exact h1
      · simp only [pyDictSet, if_neg hp, List.map_cons, List.mem_cons]
        right; exact ih h1

theorem pyDictSet_key_from {α : Type} (k : String) (v : α) :
    ∀ d : List (String × α), ∀ k2 ∈ (pyDictSet d k v).map Prod.fst,
      k2 ∈ d.map Prod.fst ∨ k2 = k := by
  intro d
  induction d with
  | nil => intro k2 h; simp [pyDictSet] at h; right; exact h
  | cons p rest ih =>
    intro k2 h
    by_cases hp : p.1 = k
    · simp only [pyDictSet, if_pos hp, List.map_cons, List.mem_cons] at h
      rcases h with h1 | h1
      · right; exact h1
      · left; simp only [List.map_cons, List.mem_cons]; right; exact h1
    · simp only [pyDictSet, if_neg hp, List.map_cons, List.mem_cons] at h
      rcases h with h1 | h1
      · left; simp [h1]
      · rcases ih k2 h1 with h2 | h2
        · left; simp only [List.map_cons, List.mem_cons]; right; exact h2
        · right; exact h2

/-- ModelCapability dataclass from models.py: one supported task and the
accepted format strings. -/
structure ModelCapability where
  supported_task : TaskType
  supported_formats : List String
  deriving DecidableEq, Repr

/-- ModelCapability.supports_task: exact equality against the single bound
task. -/
def ModelCapability.supports_task (c : ModelCapability) (task : TaskType) : Bool :=
  decide (task = c.supported_task)

/-- Attribute lookup for the name "get" on a ModelCapability instance.  The
dataclass declares exactly the fields supported_task and supported_formats
and the methods supports_task and get_supported_formats; it declares no
attribute named "get" (dataclasses do not have dict-style get), so CPython
getattr finds nothing: the lookup result is `Option.none`. -/
def ModelCapability.method_get (_ : ModelCapability) :
    Option (String → List String → List String) :=
  Option.none

/-- ModelCapability.get_supported_formats from models.py.  Its body is
`return self.get("supported_formats", [])`: evaluating `self.get` performs
the attribute lookup embedded by `method_get`, and only if that lookup
succeeded would the call produce a value. -/
def ModelCapability.get_supported_formats (c : ModelCapability) :
    Except PyErr (List String) :=
  match c.method_get with
  | some f => .ok (f "supported_formats" [])
  | Option.none =>
      .error (.attributeError "\x27ModelCapability\x27 object has no attribute \x27get\x27")

/-- The part of a provider object a Model holds a reference to and uses:
its display name and its predict method.  predict(model_name, inputs, task)
returns one output per input or raises. -/
structure ProviderRef where
  name : String
  predict : String → List PyValue → TaskType → Except PyErr (List PyValue)

/-- Model from models.py: a name, a reference to the owning provider and a
single capability.  The isinstance(provider, Provider) check of __init__ is
discharged by typing. -/
structure Model where
  model_name : String
  provider : ProviderRef
  capability : ModelCapability

/-- Model.supports_task: exact equality against the capability's task. -/
def Model.supports_task (m : Model) (task : TaskType) : Bool :=
  decide (task = m.capability.supported_task)

/-- Model.get_supported_formats: returns the capability's format list
directly (it does not go through ModelCapability.get_supported_formats). -/
def Model.get_supported_formats (m : Model) : List String :=
  m.capability.supported_formats

/-- Model.predict from models.py: normalizes the input to a batch, delegates
to the owning provider's predict with the capability's task, then returns
results[0] for a single (non-list) input and the full list otherwise.
results[0] on an empty result list is CPython's IndexError. -/
def Model.predict (m : Model) (input_data : PyValue) : Except PyErr PyValue :=
  match input_data with
  | .list xs =>
      match m.provider.predict m.model_name xs.toList m.capability.supported_task with
      | .error e => .error e
      | .ok results => .ok (.list (listToPy results))
  | x =>
      match m.provider.predict m.model_name [x] m.capability.supported_task with
      | .error e => .error e
      | .ok [] => .error (.indexError "list index out of range")
      | .ok (r :: _) => .ok r

/-- A full provider object as the registry sees it: the reference part plus
the get_models method (a list of models, or an exception raised while
enumerating them). -/
structure Provider where
  ref : ProviderRef
  get_models : Except PyErr (List Model)

/-- ModelRegistry state: the _models dict (model_name, Model) and the
_providers dict (provider.name, Provider), both in CPython dict insertion
order. -/
structure ModelRegistry where
  models : List (String × Model)
  providers : List (String × Provider)

/-- ModelRegistry._register_provider_models body: for each enumerated model,
self._models[model.model_name] = model. -/
def registerModels (d : List (String × Model)) (ms : List Model) :
    List (String × Model) :=
  ms.foldl (fun d2 m => pyDictSet d2 m.model_name m) d

/-- One iteration of ModelRegistry._load_providers for one provider name.
The try block first stores the created provider under its name and only
then enumerates its models; ImportError and every other exception are both
caught and the loop continues, so a failure in get_models leaves the
provider stored. The `create` parameter is the composite of
ProviderFactory.create_provider with the registry's configuration for that
name. -/
def loadStep (create : String → Except PyErr Provider) (st : ModelRegistry)
    (n : String) : ModelRegistry :=
  match create n with
  | .error _ => st
  | .ok p =>
      let st2 : ModelRegistry := { st with providers := pyDictSet st.providers p.ref.name p }
      match p.get_models with
      | .error _ => st2
      | .ok ms => { st2 with models := registerModels st2.models ms }

/-- ModelRegistry.__init__ / _load_providers: starting from empty state,
fold the load step over the supported provider names.  The function is
total: every exception raised by a provider's creation or enumeration is
caught, so construction never raises. -/
def mkRegistry (supported : List String)
    (create : String → Except PyErr Provider) : ModelRegistry :=
  supported.foldl (loadStep create) ⟨[], []⟩

/-- ModelRegistry.get_available_providers: the keys of the _providers dict
(a Python set; keys of a dict are unique, the embedding keeps their
insertion order). -/
def ModelRegistry.get_available_providers (r : ModelRegistry) : List String :=
  r.providers.map Prod.fst

/-- Loop of ModelRegistry.find_models: for each loaded provider (in dict
order) call get_models() afresh and append the models whose supports_task
is true; an exception from get_models propagates. -/
def findModelsGo (task : TaskType) :
    List Provider → List Model → Except PyErr (List Model)
  | [], acc => .ok acc
  | p :: ps, acc =>
      match p.get_models with
      | .error e => .error e
      | .ok ms => findModelsGo task ps (acc ++ ms.filter (fun m => m.supports_task task))

/-- ModelRegistry.find_models from model_registry.py. -/
def ModelRegistry.find_models (r : ModelRegistry) (task : TaskType) :
    Except PyErr (List Model) :=
  findModelsGo task (r.providers.map Prod.snd) []

/-- Python str.capitalize: first character upper-cased, the rest
lower-cased. -/
def pyCapitalize (s : String) : String :=
  match s.data with
  | [] => ""
  | c :: cs => String.mk (c.toUpper :: cs.map Char.toLower)

/-- ProviderFactory.get_supported_providers: the providers directory of the
repository contains exactly one file matching *_provider.py, namely
openai_provider.py, so the discovered (and memoized) set is {"openai"}. -/
def ProviderFactory.get_supported_providers : List String := ["openai"]

/-- Python repr of the supported-provider set, as interpolated into the
"not supported" message: the set literal with quoted member names. -/
def supportedProvidersRepr : String := "\x7b\x27openai\x27\x7d"

/-- Keyword arguments passed to a provider class constructor
(provider_class(**config)). -/
def Config : Type := List (String × PyValue)

/-- A loaded provider module: getattr over the module returns the provider
class (embedded as its constructor) or nothing, in which case CPython
getattr raises AttributeError. -/
structure PyModule where
  lookupAttr : String → Option (Config → Except PyErr Provider)

/-- The import machinery importlib.import_module delegates to: maps a module
path to a module or an exception. -/
structure ImportEnv where
  importModule : String → Except PyErr PyModule

/-- ProviderFactory.create_provider from provider_factory.py: reject names
outside the discovered set with ValueError listing the set; import the
provider module, turning an ImportError into the "Could not import" message
(any other import failure propagates unchanged); getattr the provider class
and instantiate it with the configuration (config or {}). -/
def ProviderFactory.create_provider (env : ImportEnv) (provider_key : String)
    (config : Config) : Except PyErr Provider :=
  if provider_key ∈ ProviderFactory.get_supported_providers then
    match env.importModule
        ("compare_ai.repository.models.providers." ++ provider_key ++ "_provider") with
    | .error (.importError _) =>
        .error (.importError ("Could not import provider \x27" ++ provider_key ++
          "\x27. Please install the required package with: poetry install --extras " ++
          provider_key))
    | .error e => .error e
    | .ok module =>
        match module.lookupAttr (pyCapitalize provider_key ++ "Provider") with
        | Option.none =>
            .error (.attributeError ("module has no attribute \x27" ++
              pyCapitalize provider_key ++ "Provider\x27"))
        | some ctor => ctor config
  else
    .error (.valueError ("Provider \x27" ++ provider_key ++
      "\x27 is not supported. Supported providers: " ++ supportedProvidersRepr))

/-- ProviderFactory.is_provider_available: trial creation with empty
configuration; the except clause catches exactly (ImportError, ValueError)
and returns False for them; any other exception from the trial creation is
not caught and propagates. -/
def ProviderFactory.is_provider_available (env : ImportEnv) (provider_key : String) :
    Except PyErr Bool :=
  match ProviderFactory.create_provider env provider_key [] with
  | .ok _ => .ok true
  | .error (.importError _) => .ok false
  | .error (.valueError _) => .ok false
  | .error e => .error e

/-- One chat-completions request issued by the OpenAI provider: the model
name and the messages payload. -/
structure ChatCall where
  model : String
  messages : PyValue
  deriving DecidableEq, Repr

/-- The vendor client (self.client.chat.completions.create composed with the
response.choices[0].message.content extraction, which the claims do not
touch): maps a request to the extracted content or an exception. -/
def Client : Type := ChatCall → Except PyErr PyValue

/-- Substring test used by Python `in` on strings. -/
def pySubstring (needle hay : String) : Bool :=
  decide (needle = "") || decide ((hay.splitOn needle).length > 1)

/-- Python `item in container` for the embedded values: key membership for
dicts, element membership for lists, substring for strings; other
containers are not iterable. -/
def pyIn (item container : PyValue) : Except PyErr Bool :=
  match container with
  | .dict kvs => .ok (pyMemB item kvs.keyList)
  | .list xs => .ok (pyMemB item xs.toList)
  | .str s =>
      match item with
      | .str t => .ok (pySubstring t s)
      | _ => .error (.typeError "in <string> requires string as left operand")
  | _ => .error (.typeError "argument is not iterable")

/-- Python subscription container[key]: dict lookup (KeyError when absent),
list indexing with int (negative indices count from the end, out of range is
IndexError, bools index as 0/1), string indexing with int; everything else
is a TypeError. -/
def PyValue.getItem : PyValue → PyValue → Except PyErr PyValue
  | .dict kvs, key =>
      match kvs.lookup key with
      | some v => .ok v
      | Option.none => .error (.keyError "KeyError")
  | .list xs, .int n =>
      let len : Int := (xs.toList.length : Int)
      let idx : Int := if n < 0 then n + len else n
      if idx < 0 then .error (.indexError "list index out of range")
      else
        match xs.toList.get? idx.toNat with
        | some v => .ok v
        | Option.none => .error (.indexError "list index out of range")
  | .list xs, .bool b =>
      match xs.toList.get? (if b then 1 else 0) with
      | some v => .ok v
      | Option.none => .error (.indexError "list index out of range")
  | .list _, _ => .error (.typeError "list indices must be integers or slices")
  | .str s, .int n =>
      let len : Int := (s.data.length : Int)
      let idx : Int := if n < 0 then n + len else n
      if idx < 0 then .error (.indexError "string index out of range")
      else
        match s.data.get? idx.toNat with
        | some c => .ok (.str (String.singleton c))
        | Option.none => .error (.indexError "string index out of range")
  | .str _, _ => .error (.typeError "string indices must be integers")
  | _, _ => .error (.typeError "object is not subscriptable")

/-- Python iteration over a value: list elements, dict keys, string
characters; other values are not iterable. -/
def pyIterate : PyValue → Except PyErr (List PyValue)
  | .list xs => .ok xs.toList
  | .dict kvs => .ok kvs.keyList
  | .str s => .ok (s.data.map (fun c => .str (String.singleton c)))
  | _ => .error (.typeError "object is not iterable")

/-- next((item[fieldName] for item in items if item["type"] == tyName),
default): walk the items lazily, test item["type"] against the tag and
project the field of the first match; errors raised while testing or
projecting propagate; no match returns Option.none (the caller supplies the
default). -/
def pyFirstField (tyName fieldName : String) : List PyValue → Except PyErr (Option PyValue)
  | [] => .ok Option.none
  | it :: rest =>
      match it.getItem (.str "type") with
      | .error e => .error e
      | .ok tv =>
          if tv = .str tyName then
            match it.getItem (.str fieldName) with
            | .error e => .error e
            | .ok v => .ok (some v)
          else pyFirstField tyName fieldName rest

/-- Python dict.get(key, default): only dict objects carry the method; on
any other value the attribute lookup for "get" raises AttributeError. -/
def PyValue.dictGet (d : PyValue) (k : String) (default : PyValue) :
    Except PyErr PyValue :=
  match d with
  | .dict kvs => .ok ((kvs.lookup (.str k)).getD default)
  | _ => .error (.attributeError "object has no attribute \x27get\x27")

/-- The text/image extraction block of OpenaiProvider._predict_visual: when
"messages" is in the input, take messages[0]["content"] and pull the first
"text" and the first "image_url" entries (defaults "" and None); otherwise
input.get("text", "") and input.get("image"). -/
def OpenaiProvider.extractVisual (input_data : PyValue) :
    Except PyErr (PyValue × PyValue) := do
  let hasMsgs ← pyIn (.str "messages") input_data
  if hasMsgs then
    let msgs ← input_data.getItem (.str "messages")
    let message ← msgs.getItem (.int 0)
    let content ← message.getItem (.str "content")
    let items ← pyIterate content
    let textOpt ← pyFirstField "text" "text" items
    let imgOpt ← pyFirstField "image_url" "image_url" items
    return (textOpt.getD (.str ""), imgOpt.getD .none)
  else
    let text ← input_data.dictGet "text" (.str "")
    let image ← input_data.dictGet "image" .none
    return (text, image)

/-- The messages payload _predict_visual sends: one user message whose
content holds the text entry and the image_url entry. -/
def visualMessages (text image : PyValue) : PyValue :=
  .list (.cons (.dict (.cons (.str "role") (.str "user") (.cons (.str "content")
    (.list (.cons (.dict (.cons (.str "type") (.str "text") (.cons (.str "text") text .nil)))
      (.cons (.dict (.cons (.str "type") (.str "image_url")
        (.cons (.str "image_url") image .nil))) .nil)))
    .nil))) .nil)

/-- Loop of OpenaiProvider._predict_visual: per input item, extract text and
image, raise ValueError when the image is falsy (before that item's network
call), otherwise issue the call and collect the response content.  `acc`
accumulates responses, `trace` the calls already issued; an exception stops
the loop, leaving the trace of calls made so far. -/
def predictVisualGo (client : Client) (model_name : String) :
    List PyValue → List PyValue → List ChatCall →
      Except PyErr (List PyValue) × List ChatCall
  | [], acc, trace => (.ok acc, trace)
  | input :: rest, acc, trace =>
      match OpenaiProvider.extractVisual input with
      | .error e => (.error e, trace)
      | .ok (text, image) =>
          if image.truthy then
            let call : ChatCall := ⟨model_name, visualMessages text image⟩
            match client call with
            | .error e => (.error e, trace ++ [call])
            | .ok content =>
                predictVisualGo client model_name rest (acc ++ [content]) (trace ++ [call])
          else
            (.error (.valueError "Image input required for visual Q&A task"), trace)

/-- OpenaiProvider._predict_visual. -/
def OpenaiProvider.predictVisual (client : Client) (model_name : String)
    (inputs : List PyValue) : Except PyErr (List PyValue) × List ChatCall :=
  predictVisualGo client model_name inputs [] []

/-- Loop of OpenaiProvider._predict_text: per input item, take
input.get("messages", []) and issue one call with it, collecting the
response content. -/
def predictTextGo (client : Client) (model_name : String) :
    List PyValue → List PyValue → List ChatCall →
      Except PyErr (List PyValue) × List ChatCall
  | [], acc, trace => (.ok acc, trace)
  | input :: rest, acc, trace =>
      match input.dictGet "messages" (.list .nil) with
      | .error e => (.error e, trace)
      | .ok msgs =>
          let call : ChatCall := ⟨model_name, msgs⟩
          match client call with
          | .error e => (.error e, trace ++ [call])
          | .ok content =>
              predictTextGo client model_name rest (acc ++ [content]) (trace ++ [call])

/-- OpenaiProvider._predict_text. -/
def OpenaiProvider.predictText (client : Client) (model_name : String)
    (inputs : List PyValue) : Except PyErr (List PyValue) × List ChatCall :=
  predictTextGo client model_name inputs [] []

/-- OpenaiProvider.predict: dispatch on the task; TEXT_GENERATION and
VISUAL_QA go to their handlers, every other task raises ValueError naming
the task and the model before any handler work (empty call trace). -/
def OpenaiProvider.predict (client : Client) (model_name : String)
    (inputs : List PyValue) (task : TaskType) :
    Except PyErr (List PyValue) × List ChatCall :=
  if task = TaskType.TEXT_GENERATION then
    OpenaiProvider.predictText client model_name inputs
  else if task = TaskType.VISUAL_QA then
    OpenaiProvider.predictVisual client model_name inputs
  else
    (.error (.valueError ("Task " ++ task.pyStr ++ " not supported for model " ++
      model_name)), [])

/-- OpenaiProvider._get_supported_formats: the format map with default []. -/
def OpenaiProvider.getSupportedFormats : TaskType → List String
  | .TEXT_GENERATION => ["txt", "md", "json"]
  | .VISUAL_QA => ["png", "jpg", "jpeg"]
  | _ => []

/-- OpenaiProvider._list_available_models: the hard-coded catalog of model
names with their task_support lists. -/
def OpenaiProvider.listAvailableModels : List (String × List TaskType) :=
  [("gpt-4", [.TEXT_GENERATION, .VISUAL_QA]),
   ("gpt-4-vision-preview", [.VISUAL_QA]),
   ("gpt-3.5-turbo", [.TEXT_GENERATION])]

/-- Loop of OpenaiProvider.get_models.  In the source, the append of the
Model sits outside the inner `for task in model["task_support"]` loop, so
one Model is appended per catalog entry and the single local `capability`
holds whatever the last inner iteration assigned; the local survives across
outer iterations (Option.none embeds the unbound state before any
assignment, which would be CPython's UnboundLocalError). -/
def openaiGetModelsGo (ref : ProviderRef) :
    List (String × List TaskType) → Option ModelCapability → List Model →
      Except PyErr (List Model)
  | [], _, acc => .ok acc
  | entry :: rest, cap, acc =>
      match entry.2.foldl
          (fun _ t => some (ModelCapability.mk t (OpenaiProvider.getSupportedFormats t))) cap with
      | Option.none =>
          .error (.otherError
            "UnboundLocalError: local variable \x27capability\x27 referenced before assignment")
      | some c => openaiGetModelsGo ref rest (some c) (acc ++ [Model.mk entry.1 ref c])

/-- OpenaiProvider.get_models, parameterized by the reference to the
provider object itself (provider=self in the source). -/
def OpenaiProvider.get_models (ref : ProviderRef) : Except PyErr (List Model) :=
  openaiGetModelsGo ref OpenaiProvider.listAvailableModels Option.none []

/-- Dict-key coercion performed by CPython json.dump: string keys verbatim,
int keys through str(), bool keys to "true"/"false", None to "null";
container keys raise TypeError.  (Floats are outside the embedding.) -/
def pyJsonKey : PyValue → Except PyErr String
  | .str s => .ok s
  | .int n => .ok (toString n)
  | .bool b => .ok (if b then "true" else "false")
  | .none => .ok "null"
  | _ => .error (.typeError "keys must be str, int, float, bool or None, not a container")

/-- Rebuild a dict spine from a string-keyed assoc list (every key a JSON
string). -/
def assocToPairs : List (String × PyValue) → PyPairs
  | [] => .nil
  | (k, v) :: t => .cons (.str k) v (assocToPairs t)

mutual
/-- Normal form of a value under json.dump followed by json.load, modelling
the CPython json module: scalars and lists round-trip structurally, dict
keys are coerced to strings by `pyJsonKey`, and json.load rebuilds each
object by successive d[k] = v assignment, so duplicate coerced keys collapse
to the last value at the first position.  The file written by json.dump
parses back to exactly this value, so the embedding stores it as the file
content. -/
def PyValue.jsonNF : PyValue → Except PyErr PyValue
  | .none => .ok .none
  | .bool b => .ok (.bool b)
  | .int n => .ok (.int n)
  | .str s => .ok (.str s)
  | .list xs =>
      match xs.jsonNFL with
      | .error e => .error e
      | .ok ys => .ok (.list ys)
  | .dict kvs =>
      match kvs.jsonNFP [] with
      | .error e => .error e
      | .ok ps => .ok (.dict (assocToPairs ps))
/-- jsonNF over a list spine. -/
def PyList.jsonNFL : PyList → Except PyErr PyList
  | .nil => .ok .nil
  | .cons h t =>
      match h.jsonNF with
      | .error e => .error e
      | .ok h2 =>
          match t.jsonNFL with
          | .error e => .error e
          | .ok t2 => .ok (.cons h2 t2)
/-- jsonNF over dict pairs, building the reloaded object by successive
assignment into `acc` (serialization order: key, then value, pair by
pair). -/
def PyPairs.jsonNFP : PyPairs → List (String × PyValue) →
    Except PyErr (List (String × PyValue))
  | .nil, acc => .ok acc
  | .cons k v t, acc =>
      match pyJsonKey k with
      | .error e => .error e
      | .ok ks =>
          match v.jsonNF with
          | .error e => .error e
          | .ok v2 => t.jsonNFP (pyDictSet acc ks v2)
end

mutual
/-- Well-formedness for exact JSON round-tripping: every dict key, at every
nesting level, is a string, and the keys of each dict are pairwise distinct
(CPython dicts guarantee the distinctness by construction). -/
def PyValue.jsonExact : PyValue → Bool
  | .none => true
  | .bool _ => true
  | .int _ => true
  | .str _ => true
  | .list xs => xs.jsonExactL
  | .dict kvs => kvs.jsonExactP && pyNodupB kvs.keyList
/-- jsonExact over a list spine. -/
def PyList.jsonExactL : PyList → Bool
  | .nil => true
  | .cons h t => h.jsonExact && t.jsonExactL
/-- Per-pair condition: string key and exact value. -/
def PyPairs.jsonExactP : PyPairs → Bool
  | .nil => true
  | .cons k v t => k.isStrB && v.jsonExact && t.jsonExactP
end

/-- The assoc-list image of a dict spine whose keys are strings (non-string
keys are skipped; under jsonExactP there are none). -/
def PyPairs.toAssoc : PyPairs → List (String × PyValue)
  | .nil => []
  | .cons (.str s) v t => (s, v) :: t.toAssoc
  | .cons _ _ t => t.toAssoc

/-- The file system as the Result persistence layer sees it: a mapping from
paths to the parsed content of the JSON text stored at that path. -/
def FS : Type := List (String × PyValue)

/-- Result from results_manager.py: wraps the raw predictions value. -/
structure Result where
  predictions : PyValue
  deriving DecidableEq, Repr

/-- Result.save_to_file: open(path, "w") truncates the file and json.dump
writes the serialization of predictions; the stored content is its parsed
image `jsonNF`.  A serialization failure raises. -/
def Result.save_to_file (r : Result) (fs : FS) (path : String) : Except PyErr FS :=
  match r.predictions.jsonNF with
  | .error e => .error e
  | .ok j => .ok (pyDictSet fs path j)

/-- Result.load_from_file: json.load of the file at path replaces
self.predictions; a missing file raises FileNotFoundError. -/
def Result.load_from_file (r : Result) (fs : FS) (path : String) :
    Except PyErr Result :=
  match pyDictGet fs path with
  | some j => .ok { r with predictions := j }
  | Option.none => .error (.otherError "FileNotFoundError")

/-- Simultaneous induction over the PyValue / PyList / PyPairs triple. -/
def pyTripleInd (P : PyValue → Prop) (Q : PyList → Prop) (R : PyPairs → Prop)
    (hnone : P .none) (hbool : ∀ b, P (.bool b)) (hint : ∀ n, P (.int n))
    (hstr : ∀ s, P (.str s))
    (hlist : ∀ xs, Q xs → P (.list xs)) (hdict : ∀ ps, R ps → P (.dict ps))
    (hnil : Q .nil) (hconsL : ∀ h t, P h → Q t → Q (.cons h t))
    (hnilP : R .nil) (hconsP : ∀ k v t, P k → P v → R t → R (.cons k v t)) :
    (∀ v, P v) ∧ (∀ xs, Q xs) ∧ (∀ ps, R ps) :=
  ⟨fun v => PyValue.rec hnone hbool hint hstr hlist hdict hnil hconsL hnilP hconsP v,
   fun xs => PyList.rec hnone hbool hint hstr hlist hdict hnil hconsL hnilP hconsP xs,
   fun ps => PyPairs.rec hnone hbool hint hstr hlist hdict hnil hconsL hnilP hconsP ps⟩

/-- A vendor client that answers every request with a fixed string. -/
def stubClient : Client := fun _ => .ok (.str "response")

/-- A provider reference echoing its inputs (used to instantiate theorems
that hold for every provider reference). -/
def stubRef : ProviderRef := ⟨"openai", fun _ ins _ => .ok ins⟩

/-- C6: for every task other than TEXT_GENERATION and VISUAL_QA,
OpenaiProvider.predict fails with a ValueError whose message names the task
and the model, and performs no handler work: no network call is issued. -/
theorem openai_predict_unsupported_task (client : Client) (model_name : String)
    (inputs : List PyValue) (task : TaskType)
    (h1 : task ≠ TaskType.TEXT_GENERATION) (h2 : task ≠ TaskType.VISUAL_QA) :
    OpenaiProvider.predict client model_name inputs task =
      (.error (.valueError ("Task " ++ task.pyStr ++ " not supported for model " ++
        model_name)), []) := by
  rw [OpenaiProvider.predict, if_neg h1, if_neg h2]

/-- Closed instance of the C6 theorem: IMAGE_GENERATION on "gpt-4". -/
theorem openai_predict_unsupported_task_witness :
    OpenaiProvider.predict stubClient "gpt-4" [] TaskType.IMAGE_GENERATION =
      (.error (.valueError ("Task " ++ TaskType.pyStr TaskType.IMAGE_GENERATION ++
        " not supported for model " ++ "gpt-4")), []) :=
  openai_predict_unsupported_task stubClient "gpt-4" [] TaskType.IMAGE_GENERATION
    (by decide) (by decide)

/-- C8: create_provider for a name outside the discovered set fails with
the "not supported" ValueError listing the valid provider set, and no
provider instance is created: the result does not depend on the import /
instantiation environment at all. -/
theorem create_provider_unsupported (env : ImportEnv) (key : String) (config : Config)
    (h : key ∉ ProviderFactory.get_supported_providers) :
    ProviderFactory.create_provider env key config =
      .error (.valueError ("Provider \x27" ++ key ++
        "\x27 is not supported. Supported providers: " ++ supportedProvidersRepr)) ∧
    ∀ env2 : ImportEnv, ProviderFactory.create_provider env key config =
      ProviderFactory.create_provider env2 key config := by
  refine ⟨?_, ?_⟩
  · simp only [ProviderFactory.create_provider, if_neg h]
  · intro env2
    simp only [ProviderFactory.create_provider, if_neg h]

/-- An import environment in which every module import fails. -/
def noImportEnv : ImportEnv := ⟨fun _ => .error (.importError "module not found")⟩

/-- Closed instance of the C8 theorem at the name "not-a-real-provider". -/
theorem create_provider_unsupported_witness :
    ProviderFactory.create_provider noImportEnv "not-a-real-provider" [] =
      .error (.valueError ("Provider \x27" ++ "not-a-real-provider" ++
        "\x27 is not supported. Supported providers: " ++ supportedProvidersRepr)) ∧
    ∀ env2 : ImportEnv, ProviderFactory.create_provider noImportEnv "not-a-real-provider" [] =
      ProviderFactory.create_provider env2 "not-a-real-provider" [] :=
  create_provider_unsupported noImportEnv "not-a-real-provider" [] (by decide)

/-- C9: OpenaiProvider.get_models returns exactly one Model per catalog
entry (three in all), each carrying only the capability built from the last
task in its entry's task_support list: "gpt-4" comes back with VISUAL_QA,
so it does not satisfy supports_task(TEXT_GENERATION). -/
theorem openai_get_models_last_task_wins (ref : ProviderRef) :
    OpenaiProvider.get_models ref = .ok
      [Model.mk "gpt-4" ref (ModelCapability.mk .VISUAL_QA ["png", "jpg", "jpeg"]),
       Model.mk "gpt-4-vision-preview" ref (ModelCapability.mk .VISUAL_QA ["png", "jpg", "jpeg"]),
       Model.mk "gpt-3.5-turbo" ref (ModelCapability.mk .TEXT_GENERATION ["txt", "md", "json"])] ∧
    (Model.mk "gpt-4" ref (ModelCapability.mk .VISUAL_QA ["png", "jpg", "jpeg"])).supports_task
      TaskType.TEXT_GENERATION = false ∧
    (Model.mk "gpt-4" ref (ModelCapability.mk .VISUAL_QA ["png", "jpg", "jpeg"])).supports_task
      TaskType.VISUAL_QA = true :=
  ⟨rfl, rfl, rfl⟩

/-- C10: ModelCapability.get_supported_formats always raises AttributeError
(its body calls self.get, an attribute the dataclass does not define) and
never returns the format list; only Model.get_supported_formats returns
the capability's formats. -/
theorem capability_get_supported_formats_raises :
    (∀ c : ModelCapability, c.get_supported_formats =
      .error (.attributeError "\x27ModelCapability\x27 object has no attribute \x27get\x27")) ∧
    (∀ m : Model, m.get_supported_formats = m.capability.supported_formats) :=
  ⟨fun _ => rfl, fun _ => rfl⟩

theorem toList_listToPy : ∀ xs : List PyValue, (listToPy xs).toList = xs := by
  intro xs
  induction xs with
  | nil => rfl
  | cons x t ih => simp [listToPy, PyList.toList, ih]

/-- C2: for a Model whose provider returns one output per input in input
order (the per-input correspondence f), predict on a single (non-list)
input returns the single corresponding output, not a one-element list, and
predict on a list returns the list of outputs in positional
correspondence. -/
theorem model_predict_single_and_batch (m : Model) (f : PyValue → PyValue)
    (hprov : ∀ ins : List PyValue,
      m.provider.predict m.model_name ins m.capability.supported_task =
        .ok (ins.map f)) :
    (∀ x : PyValue, x.isList = false → m.predict x = .ok (f x)) ∧
    (∀ xs : List PyValue,
      m.predict (.list (listToPy xs)) = .ok (.list (listToPy (xs.map f))) ∧
      (xs.map f).length = xs.length ∧
      ∀ i : Nat, (xs.map f).get? i = (xs.get? i).map f) := by
  constructor
  · intro x hx
    cases x with
    | list xs => simp [PyValue.isList] at hx
    | none => simp [Model.predict, hprov]
    | bool b => simp [Model.predict, hprov]
    | int n => simp [Model.predict, hprov]
    | str s => simp [Model.predict, hprov]
    | dict kvs => simp [Model.predict, hprov]
  · intro xs
    refine ⟨?_, by simp, ?_⟩
    · simp [Model.predict, toList_listToPy, hprov]
    · intro i
      simp [List.get?_map]

/-- A provider reference wrapping each input in a singleton list. -/
def echoListRef : ProviderRef :=
  ⟨"echo", fun _ ins _ => .ok (ins.map (fun v => PyValue.list (.cons v .nil)))⟩

/-- A model owned by echoListRef. -/
def echoModel : Model :=
  ⟨"echo-model", echoListRef, ModelCapability.mk .TEXT_GENERATION ["txt"]⟩

/-- Closed instance of the C2 theorem: a single input yields a bare output,
a two-element batch yields both outputs in order. -/
theorem model_predict_single_and_batch_witness :
    echoModel.predict (.str "a") = .ok (PyValue.list (.cons (.str "a") .nil)) ∧
    echoModel.predict (.list (listToPy [.str "x", .str "y"])) =
      .ok (.list (listToPy ([PyValue.str "x", PyValue.str "y"].map
        (fun v => PyValue.list (.cons v .nil))))) := by
  have h := model_predict_single_and_batch echoModel
    (fun v => PyValue.list (.cons v .nil)) (fun _ => rfl)
  exact ⟨h.1 (.str "a") rfl, (h.2 [.str "x", .str "y"]).1⟩

/-- C4 (amended): is_provider_available returns True when the trial
creation succeeds, False when it fails with ImportError or ValueError, and
propagates (re-raises) any other exception from the trial creation. -/
theorem is_provider_available_semantics (env : ImportEnv) (key : String) :
    (∀ p, ProviderFactory.create_provider env key [] = .ok p →
      ProviderFactory.is_provider_available env key = .ok true) ∧
    (∀ msg, ProviderFactory.create_provider env key [] = .error (.importError msg) →
      ProviderFactory.is_provider_available env key = .ok false) ∧
    (∀ msg, ProviderFactory.create_provider env key [] = .error (.valueError msg) →
      ProviderFactory.is_provider_available env key = .ok false) ∧
    (∀ e, ProviderFactory.create_provider env key [] = .error e →
      (∀ msg, e ≠ .importError msg) → (∀ msg, e ≠ .valueError msg) →
      ProviderFactory.is_provider_available env key = .error e) := by
  refine ⟨?_, ?_, ?_, ?_⟩
  · intro p h
    simp [ProviderFactory.is_provider_available, h]
  · intro msg h
    simp [ProviderFactory.is_provider_available, h]
  · intro msg h
    simp [ProviderFactory.is_provider_available, h]
  · intro e h h1 h2
    cases e with
    | importError msg => exact absurd rfl (h1 msg)
    | valueError msg => exact absurd rfl (h2 msg)
    | typeError msg => simp [ProviderFactory.is_provider_available, h]
    | attributeError msg => simp [ProviderFactory.is_provider_available, h]
    | indexError msg => simp [ProviderFactory.is_provider_available, h]
    | keyError msg => simp [ProviderFactory.is_provider_available, h]
    | otherError msg => simp [ProviderFactory.is_provider_available, h]

/-- An import environment whose provider class raises openai.OpenAIError at
instantiation (no api_key configured and none in the environment), an
exception that is neither ImportError nor ValueError. -/
def apiKeyErrorEnv : ImportEnv :=
  ⟨fun _ => .ok ⟨fun attr =>
    if attr = "OpenaiProvider" then
      some (fun _ => .error (.otherError "OpenAIError: The api_key client option must be set"))
    else Option.none⟩⟩

/-- C4 counterexample: a trial creation failing with an exception outside
(ImportError, ValueError) makes is_provider_available raise instead of
returning False, refuting "never raises ... returns False on any failure,
whatever the kind of failure". -/
theorem is_provider_available_raises_cex :
    ProviderFactory.is_provider_available apiKeyErrorEnv "openai" =
      .error (.otherError "OpenAIError: The api_key client option must be set") ∧
    ProviderFactory.is_provider_available apiKeyErrorEnv "openai" ≠ .ok false := by
  exact ⟨rfl, fun h => Except.noConfusion h⟩

theorem registerModels_mem (km : String × Model) :
    ∀ (ms : List Model) (d : List (String × Model)),
      km ∈ registerModels d ms →
      km ∈ d ∨ ∃ m ∈ ms, km = (m.model_name, m) := by
  intro ms
  induction ms with
  | nil => intro d h; left; exact h
  | cons m ms ih =>
    intro d h
    rw [registerModels, List.foldl_cons] at h
    rcases ih (pyDictSet d m.model_name m) h with h1 | h1
    · rcases pyDictSet_mem m.model_name m d km h1 with h2 | h2
      · left; exact h2
      · right; exact ⟨m, List.mem_cons_self m ms, h2⟩
    · obtain ⟨m2, hm2, hkm⟩ := h1
      right; exact ⟨m2, List.mem_cons_of_mem m hm2, hkm⟩

theorem loadStep_models_mem (create : String → Except PyErr Provider)
    (st : ModelRegistry) (n : String) (km : String × Model) :
    km ∈ (loadStep create st n).models →
    km ∈ st.models ∨
      ∃ p, create n = .ok p ∧ ∃ ms, p.get_models = .ok ms ∧
        km.2 ∈ ms ∧ km.1 = km.2.model_name := by
  intro h
  cases hc : create n with
  | error e =>
    simp only [loadStep, hc] at h
    left; exact h
  | ok p =>
    cases hg : p.get_models with
    | error e =>
      simp only [loadStep, hc, hg] at h
      left; exact h
    | ok ms =>
      simp only [loadStep, hc, hg] at h
      rcases registerModels_mem km ms st.models h with h1 | h1
      · left; exact h1
      · obtain ⟨m, hm, hkm⟩ := h1
        right
        exact ⟨p, rfl, ms, hg, by rw [hkm]; exact hm, by rw [hkm]⟩

theorem loadStep_providers_keys_mono (create : String → Except PyErr Provider)
    (st : ModelRegistry) (n : String) (k : String) :
    k ∈ st.providers.map Prod.fst →
    k ∈ (loadStep create st n).providers.map Prod.fst := by
  intro h
  cases hc : create n with
  | error e =>
    simp only [loadStep, hc]
    exact h
  | ok p =>
    cases hg : p.get_models with
    | error e =>
      simp only [loadStep, hc, hg]
      exact pyDictSet_key_preserved p.ref.name p k st.providers h
    | ok ms =>
      simp only [loadStep, hc, hg]
      exact pyDictSet_key_preserved p.ref.name p k st.providers h

theorem loadStep_adds_provider (create : String → Except PyErr Provider)
    (st : ModelRegistry) (n : String) (p : Provider) (h : create n = .ok p) :
    p.ref.name ∈ (loadStep create st n).providers.map Prod.fst := by
  cases hg : p.get_models with
  | error e =>
    simp only [loadStep, h, hg]
    exact pyDictSet_key_mem p.ref.name p st.providers
  | ok ms =>
    simp only [loadStep, h, hg]
    exact pyDictSet_key_mem p.ref.name p st.providers

theorem loadStep_providers_keys_from (create : String → Except PyErr Provider)
    (st : ModelRegistry) (n : String) (nm : String) :
    nm ∈ (loadStep create st n).providers.map Prod.fst →
    nm ∈ st.providers.map Prod.fst ∨ ∃ p, create n = .ok p ∧ p.ref.name = nm := by
  intro h
  cases hc : create n with
  | error e =>
    simp only [loadStep, hc] at h
    left; exact h
  | ok p =>
    have hfrom : nm ∈ (pyDictSet st.providers p.ref.name p).map Prod.fst →
        nm ∈ st.providers.map Prod.fst ∨ nm = p.ref.name :=
      pyDictSet_key_from p.ref.name p st.providers nm
    cases hg : p.get_models with
    | error e =>
      simp only [loadStep, hc, hg] at h
      rcases hfrom h with h1 | h1
      · left; exact h1
      · right; exact ⟨p, rfl, h1.symm⟩
    | ok ms =>
      simp only [loadStep, hc, hg] at h
      rcases hfrom h with h1 | h1
      · left; exact h1
      · right; exact ⟨p, rfl, h1.symm⟩

theorem loadFold_skip (create : String → Except PyErr Provider) :
    ∀ (names : List String) (st : ModelRegistry),
      (∀ n ∈ names, ∃ e, create n = .error e) →
      names.foldl (loadStep create) st = st := by
  intro names
  induction names with
  | nil => intro st _; rfl
  | cons a names ih =>
    intro st h
    obtain ⟨e, he⟩ := h a (List.mem_cons_self a names)
    have hstep : loadStep create st a = st := by rw [loadStep, he]
    rw [List.foldl_cons, hstep]
    exact ih st (fun n hn => h n (List.mem_cons_of_mem a hn))

theorem loadFold_models_mem (create : String → Except PyErr Provider) :
    ∀ (names : List String) (st : ModelRegistry) (km : String × Model),
      km ∈ (names.foldl (loadStep create) st).models →
      km ∈ st.models ∨
        ∃ n ∈ names, ∃ p, create n = .ok p ∧ ∃ ms, p.get_models = .ok ms ∧
          km.2 ∈ ms ∧ km.1 = km.2.model_name := by
  intro names
  induction names with
  | nil => intro st km h; left; exact h
  | cons a names ih =>
    intro st km h
    rw [List.foldl_cons] at h
    rcases ih (loadStep create st a) km h with h1 | h1
    · rcases loadStep_models_mem create st a km h1 with h2 | h2
      · left; exact h2
      · obtain ⟨p, hp, rest⟩ := h2
        right; exact ⟨a, List.mem_cons_self a names, p, hp, rest⟩
    · obtain ⟨n, hn, rest⟩ := h1
      right; exact ⟨n, List.mem_cons_of_mem a hn, rest⟩

theorem loadFold_keys_mono (create : String → Except PyErr Provider) :
    ∀ (names : List String) (st : ModelRegistry) (k : String),
      k ∈ st.providers.map Prod.fst →
      k ∈ ((names.foldl (loadStep create) st).providers.map Prod.fst) := by
  intro names
  induction names with
  | nil => intro st k h; exact h
  | cons a names ih =>
    intro st k h
    rw [List.foldl_cons]
    exact ih (loadStep create st a) k (loadStep_providers_keys_mono create st a k h)

theorem loadFold_created_appears (create : String → Except PyErr Provider) :
    ∀ (names : List String) (st : ModelRegistry) (n : String) (p : Provider),
      n ∈ names → create n = .ok p →
      p.ref.name ∈ ((names.foldl (loadStep create) st).providers.map Prod.fst) := by
  intro names
  induction names with
  | nil => intro st n p h _; cases h
  | cons a names ih =>
    intro st n p hn hc
    rw [List.foldl_cons]
    rcases List.mem_cons.mp hn with rfl | hn2
    · exact loadFold_keys_mono create names (loadStep create st n) p.ref.name
        (loadStep_adds_provider create st n p hc)
    · exact ih (loadStep create st a) n p hn2 hc

theorem loadFold_keys_from (create : String → Except PyErr Provider) :
    ∀ (names : List String) (st : ModelRegistry) (nm : String),
      nm ∈ ((names.foldl (loadStep create) st).providers.map Prod.fst) →
      nm ∈ st.providers.map Prod.fst ∨
        ∃ n ∈ names, ∃ p, create n = .ok p ∧ p.ref.name = nm := by
  intro names
  induction names with
  | nil => intro st nm h; left; exact h
  | cons a names ih =>
    intro st nm h
    rw [List.foldl_cons] at h
    rcases ih (loadStep create st a) nm h with h1 | h1
    · rcases loadStep_providers_keys_from create st a nm h1 with h2 | h2
      · left; exact h2
      · obtain ⟨p, hp, hnm⟩ := h2
        right; exact ⟨a, List.mem_cons_self a names, p, hp, hnm⟩
    · obtain ⟨n, hn, rest⟩ := h1
      right; exact ⟨n, List.mem_cons_of_mem a hn, rest⟩

/-- C3 (amended): registry construction is total (every creation or
enumeration exception is caught); a factory failing on every provider
yields an empty registry; every registered model comes from a provider
whose creation and model enumeration both succeeded (so a failed provider
contributes zero models); every successfully created provider appears in
get_available_providers() even when its model enumeration then fails; and
every name in get_available_providers() comes from a successful creation
(so a provider whose creation fails does not appear). -/
theorem registry_load_semantics (supported : List String)
    (create : String → Except PyErr Provider) :
    ((∀ n ∈ supported, ∃ e, create n = .error e) →
      (mkRegistry supported create).providers = [] ∧
      (mkRegistry supported create).models = []) ∧
    (∀ km ∈ (mkRegistry supported create).models,
      ∃ n ∈ supported, ∃ p, create n = .ok p ∧ ∃ ms, p.get_models = .ok ms ∧
        km.2 ∈ ms ∧ km.1 = km.2.model_name) ∧
    (∀ n ∈ supported, ∀ p, create n = .ok p →
      p.ref.name ∈ (mkRegistry supported create).get_available_providers) ∧
    (∀ nm ∈ (mkRegistry supported create).get_available_providers,
      ∃ n ∈ supported, ∃ p, create n = .ok p ∧ p.ref.name = nm) := by
  refine ⟨?_, ?_, ?_, ?_⟩
  · intro h
    rw [mkRegistry, loadFold_skip create supported ⟨[], []⟩ h]
    exact ⟨rfl, rfl⟩
  · intro km h
    rcases loadFold_models_mem create supported ⟨[], []⟩ km h with h1 | h1
    · cases h1
    · exact h1
  · intro n hn p hp
    exact loadFold_created_appears create supported ⟨[], []⟩ n p hn hp
  · intro nm h
    rcases loadFold_keys_from create supported ⟨[], []⟩ nm h with h1 | h1
    · cases h1
    · exact h1

/-- A provider reference whose predict always fails. -/
def failEnumRef : ProviderRef := ⟨"p", fun _ _ _ => .error (.otherError "network")⟩

/-- A provider created successfully but whose get_models raises. -/
def failEnumProvider : Provider := ⟨failEnumRef, .error (.otherError "boom")⟩

/-- A registry reachable by construction: one supported provider whose
creation succeeds and whose model enumeration raises. -/
def failEnumRegistry : ModelRegistry :=
  mkRegistry ["p"] (fun _ => .ok failEnumProvider)

/-- C3 counterexample: a provider whose load attempt fails during model
enumeration contributes zero models, yet it does appear in
get_available_providers(), because the source stores the provider in
_providers before enumerating its models and the except clause then
swallows the enumeration error. -/
theorem registry_enum_failure_visible_cex :
    failEnumProvider.get_models = .error (.otherError "boom") ∧
    failEnumRegistry.get_available_providers = ["p"] ∧
    failEnumRegistry.models = [] :=
  ⟨rfl, rfl, rfl⟩

theorem findModelsGo_ok (task : TaskType) :
    ∀ (ps : List Provider) (acc : List Model),
      (∀ p ∈ ps, ∃ ms, p.get_models = .ok ms) →
      ∃ res, findModelsGo task ps acc = .ok res ∧
        ∀ m : Model, m ∈ res ↔ m ∈ acc ∨
          ∃ p ∈ ps, ∃ ms, p.get_models = .ok ms ∧ m ∈ ms ∧
            m.supports_task task = true := by
  intro ps
  induction ps with
  | nil =>
    intro acc _
    exact ⟨acc, rfl, fun m => by simp⟩
  | cons p ps ih =>
    intro acc hok
    obtain ⟨ms, hms⟩ := hok p (List.mem_cons_self p ps)
    obtain ⟨res, hres, hiff⟩ :=
      ih (acc ++ ms.filter (fun m => m.supports_task task))
        (fun q hq => hok q (List.mem_cons_of_mem p hq))
    refine ⟨res, ?_, ?_⟩
    · rw [findModelsGo, hms]
      exact hres
    · intro m
      rw [hiff m]
      constructor
      · rintro (hm | hm)
        · rcases List.mem_append.mp hm with h1 | h1
          · left; exact h1
          · obtain ⟨hmem, hsup⟩ := List.mem_filter.mp h1
            right; exact ⟨p, List.mem_cons_self p ps, ms, hms, hmem, hsup⟩
        · obtain ⟨q, hq, ms2, hms2, hmem, hsup⟩ := hm
          right; exact ⟨q, List.mem_cons_of_mem p hq, ms2, hms2, hmem, hsup⟩
      · rintro (hm | ⟨q, hq, ms2, hms2, hmem, hsup⟩)
        · left; exact List.mem_append_left _ hm
        · rcases List.mem_cons.mp hq with rfl | hq2
          · left
            apply List.mem_append_right
            apply List.mem_filter.mpr
            have hms2eq : ms2 = ms := by
              rw [hms] at hms2
              injection hms2 with h2
              exact h2.symm
            exact ⟨hms2eq ▸ hmem, hsup⟩
          · right; exact ⟨q, hq2, ms2, hms2, hmem, hsup⟩

/-- C1 (amended): for every registry reachable by construction in which
each loaded provider's get_models() succeeds, find_models(t) returns
exactly the models m among the loaded providers' get_models() lists with
supports_task(t) true (soundness and completeness), and returns the empty
list when no such model exists.  (When a loaded provider's get_models()
raises, find_models propagates the exception: see the counterexample.) -/
theorem find_models_sound_complete (supported : List String)
    (create : String → Except PyErr Provider) (task : TaskType)
    (hok : ∀ kp ∈ (mkRegistry supported create).providers,
      ∃ ms, kp.2.get_models = .ok ms) :
    ∃ res, (mkRegistry supported create).find_models task = .ok res ∧
      (∀ m : Model, m ∈ res ↔
        (∃ kp ∈ (mkRegistry supported create).providers,
          ∃ ms, kp.2.get_models = .ok ms ∧ m ∈ ms) ∧
        m.supports_task task = true) ∧
      ((∀ m : Model, (∃ kp ∈ (mkRegistry supported create).providers,
          ∃ ms, kp.2.get_models = .ok ms ∧ m ∈ ms) →
        m.supports_task task = false) → res = []) := by
  have hok2 : ∀ p ∈ (mkRegistry supported create).providers.map Prod.snd,
      ∃ ms, p.get_models = .ok ms := by
    intro p hp
    obtain ⟨kp, hkp, rfl⟩ := List.mem_map.mp hp
    exact hok kp hkp
  obtain ⟨res, hres, hiff⟩ :=
    findModelsGo_ok task ((mkRegistry supported create).providers.map Prod.snd) [] hok2
  have hiff2 : ∀ m : Model, m ∈ res ↔
      (∃ kp ∈ (mkRegistry supported create).providers,
        ∃ ms, kp.2.get_models = .ok ms ∧ m ∈ ms) ∧
      m.supports_task task = true := by
    intro m
    rw [hiff m]
    constructor
    · rintro (hm | ⟨p, hp, ms, hms, hmem, hsup⟩)
      · cases hm
      · obtain ⟨kp, hkp, rfl⟩ := List.mem_map.mp hp
        exact ⟨⟨kp, hkp, ms, hms, hmem⟩, hsup⟩
    · rintro ⟨⟨kp, hkp, ms, hms, hmem⟩, hsup⟩
      right
      exact ⟨kp.2, List.mem_map.mpr ⟨kp, hkp, rfl⟩, ms, hms, hmem, hsup⟩
  refine ⟨res, hres, hiff2, ?_⟩
  intro hnone
  apply List.eq_nil_iff_forall_not_mem.mpr
  intro m hm
  obtain ⟨horigin, hsup⟩ := (hiff2 m).mp hm
  rw [hnone m horigin] at hsup
  cases hsup

/-- C1 counterexample: a registry reachable by construction (one provider,
created successfully, whose get_models raises) holds no model at all, so no
loaded model supports CHAT, yet find_models(CHAT) raises the enumeration
exception instead of returning the empty list. -/
theorem find_models_raises_cex :
    failEnumRegistry.models = [] ∧
    failEnumRegistry.find_models TaskType.CHAT = .error (.otherError "boom") :=
  ⟨rfl, rfl⟩

/-- A provider reference for the C1 witness. -/
def wRef : ProviderRef := ⟨"w", fun _ ins _ => .ok ins⟩

/-- Witness models: one TEXT_GENERATION model and one VISUAL_QA model. -/
def wTextModel : Model := ⟨"w-text", wRef, ModelCapability.mk .TEXT_GENERATION ["txt"]⟩

/-- Second witness model. -/
def wVisionModel : Model := ⟨"w-vision", wRef, ModelCapability.mk .VISUAL_QA ["png"]⟩

/-- Witness provider enumerating the two models. -/
def wProvider : Provider := ⟨wRef, .ok [wTextModel, wVisionModel]⟩

/-- Witness factory. -/
def wCreate : String → Except PyErr Provider := fun _ => .ok wProvider

/-- Closed instance of the C1 theorem on a concrete one-provider registry. -/
theorem find_models_sound_complete_witness :
    ∃ res, (mkRegistry ["w"] wCreate).find_models TaskType.TEXT_GENERATION = .ok res ∧
      (∀ m : Model, m ∈ res ↔
        (∃ kp ∈ (mkRegistry ["w"] wCreate).providers,
          ∃ ms, kp.2.get_models = .ok ms ∧ m ∈ ms) ∧
        m.supports_task TaskType.TEXT_GENERATION = true) ∧
      ((∀ m : Model, (∃ kp ∈ (mkRegistry ["w"] wCreate).providers,
          ∃ ms, kp.2.get_models = .ok ms ∧ m ∈ ms) →
        m.supports_task TaskType.TEXT_GENERATION = false) → res = []) := by
  apply find_models_sound_complete ["w"] wCreate TaskType.TEXT_GENERATION
  intro kp hkp
  have hprov : (mkRegistry ["w"] wCreate).providers = [("w", wProvider)] := rfl
  rw [hprov] at hkp
  rcases List.mem_singleton.mp hkp with rfl
  exact ⟨[wTextModel, wVisionModel], rfl⟩

/-- Executable per-position test: the input at position j extracts a truthy
image (so _predict_visual processes it without raising). -/
def visualItemOkAt (inputs : List PyValue) (j : Nat) : Bool :=
  match inputs.get? j with
  | some it =>
      match OpenaiProvider.extractVisual it with
      | .ok pr => pr.2.truthy
      | .error _ => false
  | Option.none => false

theorem predictVisualGo_missing_image (client : Client) (model_name : String)
    (hclient : ∀ c, ∃ v, client c = .ok v) :
    ∀ (i : Nat) (inputs : List PyValue) (item t : PyValue)
      (acc : List PyValue) (trace : List ChatCall),
      inputs.get? i = some item →
      OpenaiProvider.extractVisual item = .ok (t, PyValue.none) →
      (∀ j, j < i → visualItemOkAt inputs j = true) →
      ∃ tr, predictVisualGo client model_name inputs acc trace =
        (.error (.valueError "Image input required for visual Q&A task"), tr) ∧
        tr.length = trace.length + i := by
  intro i
  induction i with
  | zero =>
    intro inputs item t acc trace hget hext _
    cases inputs with
    | nil => cases hget
    | cons x rest =>
      have hx : x = item := by simpa using hget
      subst hx
      refine ⟨trace, ?_, by simp⟩
      simp [predictVisualGo, hext, PyValue.truthy]
  | succ i ih =>
    intro inputs item t acc trace hget hext hgood
    cases inputs with
    | nil => cases hget
    | cons x rest =>
      have hok0 := hgood 0 (Nat.succ_pos i)
      rw [visualItemOkAt] at hok0
      simp only [List.get?_cons_zero] at hok0
      cases hev : OpenaiProvider.extractVisual x with
      | error e => rw [hev] at hok0; cases hok0
      | ok pr =>
        obtain ⟨tx, img⟩ := pr
        rw [hev] at hok0
        have himg : img.truthy = true := by simpa using hok0
        obtain ⟨v, hv⟩ := hclient ⟨model_name, visualMessages tx img⟩
        have hstep : predictVisualGo client model_name (x :: rest) acc trace =
            predictVisualGo client model_name rest (acc ++ [v])
              (trace ++ [⟨model_name, visualMessages tx img⟩]) := by
          rw [predictVisualGo, hev]
          simp [himg, hv]
        obtain ⟨tr, heq, hlen⟩ := ih rest item t (acc ++ [v])
          (trace ++ [⟨model_name, visualMessages tx img⟩])
          (by simpa using hget) hext
          (fun j hj => by
            have := hgood (j + 1) (Nat.succ_lt_succ hj)
            simpa [visualItemOkAt] using this)
        refine ⟨tr, by rw [hstep]; exact heq, ?_⟩
        rw [hlen]
        simp only [List.length_append, List.length_singleton]
        omega

/-- C7: a visual-question-answering input item from which no image can be
extracted (no image_url entry in its messages content, or no image field in
the plain-dict shape: the extraction yields Python None) makes
OpenaiProvider.predict raise the "Image input required" ValueError for that
item before issuing that item's network call: when the items before
position i all carry images and the client answers their calls, the run
fails with the validation error having issued exactly the i earlier calls
and none for the offending item. -/
theorem openai_visual_missing_image (client : Client) (model_name : String)
    (inputs : List PyValue) (i : Nat) (item t : PyValue)
    (hclient : ∀ c, ∃ v, client c = .ok v)
    (hget : inputs.get? i = some item)
    (hext : OpenaiProvider.extractVisual item = .ok (t, PyValue.none))
    (hgood : ∀ j, j < i → visualItemOkAt inputs j = true) :
    ∃ tr, OpenaiProvider.predict client model_name inputs TaskType.VISUAL_QA =
      (.error (.valueError "Image input required for visual Q&A task"), tr) ∧
      tr.length = i := by
  obtain ⟨tr, heq, hlen⟩ := predictVisualGo_missing_image client model_name hclient
    i inputs item t [] [] hget hext hgood
  refine ⟨tr, ?_, by simpa using hlen⟩
  rw [OpenaiProvider.predict, if_neg (by decide), if_pos rfl,
    OpenaiProvider.predictVisual]
  exact heq

/-- A well-formed visual input in the plain-dict shape (text and image
fields). -/
def goodVisualItem : PyValue :=
  .dict (.cons (.str "text") (.str "hi") (.cons (.str "image") (.str "http://img") .nil))

/-- A visual input with neither messages nor an image field. -/
def badVisualItem : PyValue := .dict .nil

/-- Closed instance of the C7 theorem: one good item, then an item with no
image; the run raises the validation error after exactly the one call for
the good item. -/
theorem openai_visual_missing_image_witness :
    ∃ tr, OpenaiProvider.predict stubClient "gpt-4-vision-preview"
      [goodVisualItem, badVisualItem] TaskType.VISUAL_QA =
      (.error (.valueError "Image input required for visual Q&A task"), tr) ∧
      tr.length = 1 := by
  apply openai_visual_missing_image stubClient "gpt-4-vision-preview"
    [goodVisualItem, badVisualItem] 1 badVisualItem (.str "")
  · intro c; exact ⟨.str "response", rfl⟩
  · rfl
  · rfl
  · intro j hj
    have hj0 : j = 0 := Nat.lt_one_iff.mp hj
    subst hj0
    rfl

theorem toAssoc_exact :
    ∀ ps : PyPairs, ps.jsonExactP = true → assocToPairs ps.toAssoc = ps := by
  have h := pyTripleInd (fun _ => True) (fun _ => True)
    (fun ps => ps.jsonExactP = true → assocToPairs ps.toAssoc = ps)
    trivial (fun _ => trivial) (fun _ => trivial) (fun _ => trivial)
    (fun _ _ => trivial) (fun _ _ => trivial) trivial (fun _ _ _ _ => trivial)
    (by intro _; rfl)
    (by
      intro k v t _ _ iht hex
      rw [PyPairs.jsonExactP, Bool.and_eq_true, Bool.and_eq_true] at hex
      obtain ⟨⟨hk, _⟩, ht⟩ := hex
      cases k with
      | str s => rw [PyPairs.toAssoc, assocToPairs, iht ht]
      | none => cases hk
      | bool b => cases hk
      | int n => cases hk
      | list xs => cases hk
      | dict kvs => cases hk)
  exact h.2.2

theorem jsonNF_exact_triple :
    (∀ v : PyValue, v.jsonExact = true → v.jsonNF = .ok v) ∧
    (∀ xs : PyList, xs.jsonExactL = true → xs.jsonNFL = .ok xs) ∧
    (∀ ps : PyPairs, ps.jsonExactP = true → pyNodupB ps.keyList = true →
      ∀ acc : List (String × PyValue),
        (∀ kv ∈ acc, PyValue.str kv.1 ∉ ps.keyList) →
        ps.jsonNFP acc = .ok (acc ++ ps.toAssoc)) := by
  apply pyTripleInd
  · intro _; rfl
  · intro b _; rfl
  · intro n _; rfl
  · intro s _; rfl
  · intro xs ihq h
    rw [PyValue.jsonExact] at h
    rw [PyValue.jsonNF, ihq h]
  · intro ps ihr h
    rw [PyValue.jsonExact, Bool.and_eq_true] at h
    obtain ⟨hp, hn⟩ := h
    have hnfp := ihr hp hn [] (by intro kv hkv; cases hkv)
    rw [PyValue.jsonNF, hnfp]
    show Except.ok (PyValue.dict (assocToPairs ([] ++ ps.toAssoc))) =
      Except.ok (PyValue.dict ps)
    rw [List.nil_append, toAssoc_exact ps hp]
  · intro _; rfl
  · intro h t ihp ihq hex
    rw [PyList.jsonExactL, Bool.and_eq_true] at hex
    obtain ⟨h1, h2⟩ := hex
    rw [PyList.jsonNFL, ihp h1, ihq h2]
  · intro _ _ acc _
    rw [PyPairs.jsonNFP, PyPairs.toAssoc, List.append_nil]
  · intro k v t ihk ihv iht hex hnd acc hdisj
    rw [PyPairs.jsonExactP, Bool.and_eq_true, Bool.and_eq_true] at hex
    obtain ⟨⟨hk, hv⟩, ht⟩ := hex
    rw [PyPairs.keyList, pyNodupB, Bool.and_eq_true, Bool.not_eq_true'] at hnd
    obtain ⟨hmem, hnd2⟩ := hnd
    cases k with
    | str s =>
      have hset : pyDictSet acc s v = acc ++ [(s, v)] := by
        apply pyDictSet_append_of_not_mem
        intro kv hkv heq
        exact hdisj kv hkv (by rw [PyPairs.keyList, heq]; exact List.mem_cons_self _ _)
      have hdisj2 : ∀ kv ∈ acc ++ [(s, v)], PyValue.str kv.1 ∉ t.keyList := by
        intro kv hkv
        rcases List.mem_append.mp hkv with h1 | h1
        · intro hmem2
          exact hdisj kv h1 (by rw [PyPairs.keyList]; exact List.mem_cons_of_mem _ hmem2)
        · rcases List.mem_singleton.mp h1 with rfl
          exact pyMemB_eq_false_not_mem (PyValue.str s) t.keyList hmem
      have hstep : (PyPairs.cons (PyValue.str s) v t).jsonNFP acc =
          t.jsonNFP (pyDictSet acc s v) := by
        rw [show (PyPairs.cons (PyValue.str s) v t).jsonNFP acc =
            (match v.jsonNF with
             | Except.error e => Except.error e
             | Except.ok v2 => t.jsonNFP (pyDictSet acc s v2)) from rfl, ihv hv]
      rw [hstep, hset, iht ht hnd2 (acc ++ [(s, v)]) hdisj2, PyPairs.toAssoc,
        List.append_assoc, List.singleton_append]
    | none => cases hk
    | bool b => cases hk
    | int n => cases hk
    | list xs => cases hk
    | dict kvs => cases hk

/-- C5 (amended): the save/load round-trip is exact for every
JSON-serializable predictions value whose dict keys are all strings (at
every nesting level; CPython dicts keep them distinct): saving it and
loading the file back leaves predictions equal to the original, whatever
Result instance the load is invoked on and whatever the file system held
before. -/
theorem result_roundtrip_string_keys (data : PyValue) (path : String) (fs : FS)
    (h : data.jsonExact = true) :
    ∃ fs2, (Result.mk data).save_to_file fs path = .ok fs2 ∧
      ∀ r : Result, r.load_from_file fs2 path = .ok (Result.mk data) := by
  have hnf : data.jsonNF = .ok data := jsonNF_exact_triple.1 data h
  refine ⟨pyDictSet fs path data, ?_, ?_⟩
  · rw [Result.save_to_file]
    rw [show (Result.mk data).predictions = data from rfl, hnf]
  · intro r
    rw [Result.load_from_file, pyDictGet_set path data fs]

/-- Closed instance of the C5 theorem at a string-keyed dict. -/
theorem result_roundtrip_string_keys_witness :
    ∃ fs2, (Result.mk (.dict (.cons (.str "a") (.int 1)
        (.cons (.str "b") (.list (.cons (.str "x") .nil)) .nil)))).save_to_file [] "out.json" =
      .ok fs2 ∧
      ∀ r : Result, r.load_from_file fs2 "out.json" =
        .ok (Result.mk (.dict (.cons (.str "a") (.int 1)
          (.cons (.str "b") (.list (.cons (.str "x") .nil)) .nil)))) :=
  result_roundtrip_string_keys
    (.dict (.cons (.str "a") (.int 1) (.cons (.str "b") (.list (.cons (.str "x") .nil)) .nil)))
    "out.json" [] (by decide)

/-- C5 counterexample: the Python dict {1: "a"} is JSON-serializable
(json.dump coerces the int key to the string "1"), but the round-trip
returns {"1": "a"}, which differs from the saved value, refuting exactness
for every JSON-serializable dict. -/
theorem result_roundtrip_int_key_cex :
    (Result.mk (.dict (.cons (.int 1) (.str "a") .nil))).save_to_file [] "out.json" =
      .ok [("out.json", PyValue.dict (.cons (.str "1") (.str "a") .nil))] ∧
    (Result.mk .none).load_from_file
        [("out.json", PyValue.dict (.cons (.str "1") (.str "a") .nil))] "out.json" =
      .ok (Result.mk (.dict (.cons (.str "1") (.str "a") .nil))) ∧
    PyValue.dict (.cons (.str "1") (.str "a") .nil) ≠
      PyValue.dict (.cons (.int 1) (.str "a") .nil) :=
  ⟨rfl, rfl, by decide⟩

end CompareAI
